import Mathlib

/-!
Verification of the SQL query-builder module of `database-studio`
(`src/queryBuilder.ts` together with the entity types of `src/types.ts`).

The TypeScript code is shallowly embedded: each TypeScript function becomes a
Lean function of the same name, operating on Lean counterparts of the
TypeScript data.  JavaScript strings are `String`; character-level operations
of the source (single-character `String.prototype.replace` with a `/…/g`
regex, `split(',')`, `trim()`, `startsWith`/`endsWith`) are implemented by
structurally recursive helpers on `List Char` so that every definition
evaluates inside the kernel.  JavaScript numbers (used for `limit`, `offset`
and order-by priorities) are modelled as `Rat` resp. `Int`; this is exact for
every integral value occurring in the claims.
-/

namespace DBStudio

/-- The single-quote character `'` (code point 39). -/
def squoteC : Char := Char.ofNat 39

/-- The single-quote character as a one-character string. -/
def squote : String := String.mk [squoteC]

/-- The double-quote character as a one-character string. -/
def dquote : String := "\""

/-- The backtick character (code point 96) as a one-character string. -/
def btick : String := String.mk [Char.ofNat 96]

/-- JavaScript whitespace (the `\s` regex class and the characters removed by
`String.prototype.trim`): tab, LF, VT, FF, CR, space, NBSP, Ogham space mark,
the Unicode space separators U+2000–U+200A, LS, PS, NNBSP, MMSP, ideographic
space and the BOM. -/
def jsWhitespaceChar (c : Char) : Bool :=
  c.val = 9 || c.val = 10 || c.val = 11 || c.val = 12 || c.val = 13 ||
  c.val = 32 || c.val = 160 || c.val = 0x1680 ||
  (0x2000 ≤ c.val && c.val ≤ 0x200A) ||
  c.val = 0x2028 || c.val = 0x2029 || c.val = 0x202F || c.val = 0x205F ||
  c.val = 0x3000 || c.val = 0xFEFF

/-- Trim JavaScript whitespace from both ends of a character list. -/
def trimChars (l : List Char) : List Char :=
  ((l.dropWhile jsWhitespaceChar).reverse.dropWhile jsWhitespaceChar).reverse

/-- JavaScript `String.prototype.trim`. -/
def jsTrim (s : String) : String :=
  String.mk (trimChars s.toList)

/-- Replace every occurrence of the character `c` by the string `rep`
(the embedding of `str.replace(/c/g, rep)` for a single-character pattern). -/
def replaceAllChar (c : Char) (rep : List Char) : List Char → List Char
  | [] => []
  | x :: xs => if x = c then rep ++ replaceAllChar c rep xs else x :: replaceAllChar c rep xs

/-- JavaScript `str.split(',')`. -/
def splitCommaChars : List Char → List (List Char)
  | [] => [[]]
  | c :: rest =>
    if c = ',' then [] :: splitCommaChars rest
    else
      match splitCommaChars rest with
      | [] => [[c]]
      | h :: t => (c :: h) :: t

/-- JavaScript `str.split(',')`, on strings. -/
def jsSplitComma (s : String) : List String :=
  (splitCommaChars s.toList).map String.mk

/-! ### JavaScript `Number(string)` recognition

`escapeValue` tests `!isNaN(Number(value))`.  `Number` applied to a string
trims JavaScript whitespace, maps the empty remainder to `0`, and otherwise
parses a `StrNumericLiteral`: an optionally signed decimal literal
(`digits [. digits] [exponent]`, `. digits [exponent]` or `Infinity`) or an
unsigned non-decimal `0x`/`0o`/`0b` literal; anything else is `NaN`.  The
predicate below decides exactly whether the result is *not* `NaN`. -/

/-- Drop one optional leading `+`/`-` sign. -/
def dropSign : List Char → List Char
  | [] => []
  | c :: rest => if c = '+' || c = '-' then rest else c :: rest

/-- Accept an optional exponent part (`e`/`E`, optional sign, one or more
digits) that must consume the whole remaining input. -/
def expOk : List Char → Bool
  | [] => true
  | c :: rest =>
    (c = 'e' || c = 'E') &&
      (let r := dropSign rest
       !(r.takeWhile Char.isDigit).isEmpty && (r.dropWhile Char.isDigit).isEmpty)

/-- Accept a `StrUnsignedDecimalLiteral` consuming the whole input. -/
def decOk (l : List Char) : Bool :=
  if l = ['I', 'n', 'f', 'i', 'n', 'i', 't', 'y'] then true
  else
    let intPart := l.takeWhile Char.isDigit
    let r1 := l.dropWhile Char.isDigit
    if intPart.isEmpty then
      match r1 with
      | '.' :: r2 =>
        !(r2.takeWhile Char.isDigit).isEmpty && expOk (r2.dropWhile Char.isDigit)
      | _ => false
    else
      match r1 with
      | '.' :: r2 => expOk (r2.dropWhile Char.isDigit)
      | _ => expOk r1

/-- Accept an unsigned hexadecimal / octal / binary integer literal. -/
def nonDecOk : List Char → Bool
  | '0' :: b :: rest =>
    if b = 'x' || b = 'X' then
      !rest.isEmpty && rest.all fun c =>
        c.isDigit || ('a' ≤ c && c ≤ 'f') || ('A' ≤ c && c ≤ 'F')
    else if b = 'o' || b = 'O' then
      !rest.isEmpty && rest.all fun c => '0' ≤ c && c ≤ '7'
    else if b = 'b' || b = 'B' then
      !rest.isEmpty && rest.all fun c => c = '0' || c = '1'
    else false
  | _ => false

/-- `!isNaN(Number(value))` for a JavaScript string. -/
def jsIsNumeric (value : String) : Bool :=
  let t := trimChars value.toList
  t.isEmpty || nonDecOk t || decOk (dropSign t)

/-! ### The data model (`src/types.ts`) -/

/-- `types.ts` : `AggregateFunction`. -/
inductive AggregateFunction
  | COUNT | SUM | AVG | MIN | MAX | NONE
deriving DecidableEq, Repr

/-- `types.ts` : `FilterOperator`. -/
inductive FilterOperator
  | eq | ne | lt | gt | le | ge | like | notLike | inOp | notIn | isNull | isNotNull
deriving DecidableEq, Repr

/-- `types.ts` : `JoinType`. -/
inductive JoinType
  | INNER | LEFT | RIGHT | FULL
deriving DecidableEq, Repr

/-- `types.ts` : `LogicalOperator`. -/
inductive LogicalOperator
  | AND | OR
deriving DecidableEq, Repr

/-- `types.ts` : `SortDirection`. -/
inductive SortDirection
  | ASC | DESC
deriving DecidableEq, Repr

/-- The SQL dialect tag taken by `QueryBuilder`. -/
inductive Dialect
  | mysql | postgresql
deriving DecidableEq, Repr

/-- `types.ts` : `SelectColumn`.  The TypeScript field `alias` is called
`aliasName` here (`alias` is taken by a Mathlib command); `aggregate` is
`Option`al because the builder code guards it with a truthiness check
(`col.aggregate && …`), i.e. tolerates its absence at runtime. -/
structure SelectColumn where
  column : String
  aliasName : Option String
  aggregate : Option AggregateFunction
deriving DecidableEq, Repr

/-- `types.ts` : `FilterCondition`. -/
structure FilterCondition where
  column : String
  operator : FilterOperator
  value : String
  logicalOperator : Option LogicalOperator
deriving DecidableEq, Repr

/-- `types.ts` : `JoinClause`. -/
structure JoinClause where
  table : String
  type : JoinType
  leftColumn : String
  rightColumn : String
deriving DecidableEq, Repr

/-- `types.ts` : `OrderByClause`.  `priority` is an integer in every use. -/
structure OrderByClause where
  column : String
  direction : SortDirection
  priority : Int
deriving DecidableEq, Repr

/-- `types.ts` : `QueryBuilderState`.  `limit`/`offset` are JavaScript
numbers, modelled as rationals so that the validator's
`Number.isInteger` test is expressible. -/
structure QueryBuilderState where
  table : String
  schema : Option String
  distinct : Bool
  selectColumns : List SelectColumn
  filters : List FilterCondition
  joins : List JoinClause
  orderBy : List OrderByClause
  limit : Option Rat
  offset : Option Rat
  groupBy : List String
deriving DecidableEq, Repr

/-- The record returned by `QueryBuilder.validate`. -/
structure ValidationResult where
  valid : Bool
  errors : List String
deriving DecidableEq, Repr

/-! ### Rendering of the enumeration values -/

/-- SQL spelling of an aggregate function name. -/
def aggStr : AggregateFunction → String
  | .COUNT => "COUNT" | .SUM => "SUM" | .AVG => "AVG"
  | .MIN => "MIN" | .MAX => "MAX" | .NONE => "NONE"

/-- SQL spelling of a filter operator. -/
def opStr : FilterOperator → String
  | .eq => "=" | .ne => "!=" | .lt => "<" | .gt => ">" | .le => "<=" | .ge => ">="
  | .like => "LIKE" | .notLike => "NOT LIKE"
  | .inOp => "IN" | .notIn => "NOT IN"
  | .isNull => "IS NULL" | .isNotNull => "IS NOT NULL"

/-- SQL spelling of a logical operator. -/
def lopStr : LogicalOperator → String
  | .AND => "AND" | .OR => "OR"

/-- SQL spelling of a join type. -/
def joinTypeStr : JoinType → String
  | .INNER => "INNER" | .LEFT => "LEFT" | .RIGHT => "RIGHT" | .FULL => "FULL"

/-- SQL spelling of a sort direction. -/
def dirStr : SortDirection → String
  | .ASC => "ASC" | .DESC => "DESC"

/-- Decimal rendering of a JavaScript number used in `LIMIT ${…}` /
`OFFSET ${…}` template literals; exact for integral values (the only ones the
claims exercise — for non-integral rationals JavaScript would print a decimal
expansion instead of `num/den`). -/
def numStr (q : Rat) : String :=
  if q.den = 1 then toString q.num else toString q

/-! ### `QueryBuilder` (`src/queryBuilder.ts`) -/

/-- `queryBuilder.ts` lines 161–168: `quoteIdentifier`.  MySQL wraps in
backticks doubling embedded backticks; PostgreSQL wraps in double quotes
doubling embedded double quotes. -/
def quoteIdentifier (identifier : String) (dbType : Dialect) : String :=
  match dbType with
  | .mysql =>
    btick ++ String.mk (replaceAllChar (Char.ofNat 96) [Char.ofNat 96, Char.ofNat 96] identifier.toList) ++ btick
  | .postgresql =>
    dquote ++ String.mk (replaceAllChar '"' ['"', '"'] identifier.toList) ++ dquote

/-- `queryBuilder.ts` lines 170–183: `escapeValue`.  Already-quoted values
pass through, numeric-looking values stay unquoted, everything else is
wrapped in single quotes with embedded single quotes doubled. -/
def escapeValue (value : String) : String :=
  if value.toList.head? = some squoteC ∧ value.toList.getLast? = some squoteC then
    value
  else if jsIsNumeric value then
    value
  else
    squote ++ String.mk (replaceAllChar squoteC [squoteC, squoteC] value.toList) ++ squote

/-- `queryBuilder.ts` lines 57–81: `buildSelectClause`.  Note the truthiness
guards of the source: `col.aggregate && col.aggregate !== 'NONE'` and
`if (col.alias)` (an empty-string alias is falsy and therefore skipped). -/
def buildSelectClause (state : QueryBuilderState) (dbType : Dialect) : String :=
  let distinct := if state.distinct then "DISTINCT " else ""
  if state.selectColumns.isEmpty then
    "SELECT " ++ distinct ++ "*"
  else
    let columns := state.selectColumns.map fun col =>
      let columnExpr := quoteIdentifier col.column dbType
      let columnExpr :=
        match col.aggregate with
        | some agg => if agg ≠ .NONE then aggStr agg ++ "(" ++ columnExpr ++ ")" else columnExpr
        | none => columnExpr
      match col.aliasName with
      | some a => if a = "" then columnExpr else columnExpr ++ " AS " ++ quoteIdentifier a dbType
      | none => columnExpr
    "SELECT " ++ distinct ++ String.intercalate ", " columns

/-- `queryBuilder.ts` lines 83–92: `buildFromClause`.  The schema prefix is
added only for PostgreSQL and only when `state.schema` is truthy. -/
def buildFromClause (state : QueryBuilderState) (dbType : Dialect) : String :=
  let tableName := quoteIdentifier state.table dbType
  let tableName :=
    match dbType, state.schema with
    | .postgresql, some sch =>
      if sch = "" then tableName else quoteIdentifier sch dbType ++ "." ++ tableName
    | _, _ => tableName
  "FROM " ++ tableName

/-- `queryBuilder.ts` lines 94–102: `buildJoinClauses`. -/
def buildJoinClauses (joins : List JoinClause) (dbType : Dialect) : String :=
  String.intercalate "\n" (joins.map fun join =>
    joinTypeStr join.type ++ " JOIN " ++ quoteIdentifier join.table dbType ++ " ON " ++
      quoteIdentifier join.leftColumn dbType ++ " = " ++ quoteIdentifier join.rightColumn dbType)

/-- The per-filter condition text of `buildWhereClause` (lines 110–130):
null-check operators carry no value, `IN`/`NOT IN` split the raw value on
commas and trim and escape each piece, all other operators (the source's
`LIKE` branch and its default branch produce the same shape) append the
escaped value. -/
def renderCondition (filter : FilterCondition) (dbType : Dialect) : String :=
  let column := quoteIdentifier filter.column dbType
  match filter.operator with
  | .isNull | .isNotNull => column ++ " " ++ opStr filter.operator
  | .inOp | .notIn =>
    let values := (jsSplitComma filter.value).map fun v => escapeValue (jsTrim v)
    column ++ " " ++ opStr filter.operator ++ " (" ++ String.intercalate ", " values ++ ")"
  | .like | .notLike =>
    column ++ " " ++ opStr filter.operator ++ " " ++ escapeValue filter.value
  | _ =>
    column ++ " " ++ opStr filter.operator ++ " " ++ escapeValue filter.value

/-- `queryBuilder.ts` lines 104–142: `buildWhereClause`.  The source maps
over `filters` with the element index and appends the filter's logical
operator (default `AND`) whenever the index is not the last one, then joins
the conditions with single spaces after the `WHERE` keyword. -/
def buildWhereClause (filters : List FilterCondition) (dbType : Dialect) : String :=
  if filters.isEmpty then ""
  else
    let conditions := filters.enum.map fun p =>
      let condition := renderCondition p.2 dbType
      if p.1 < filters.length - 1 then
        condition ++ " " ++ lopStr (p.2.logicalOperator.getD LogicalOperator.AND)
      else condition
    "WHERE " ++ String.intercalate " " conditions

/-- `queryBuilder.ts` lines 144–147: `buildGroupByClause`. -/
def buildGroupByClause (groupBy : List String) (dbType : Dialect) : String :=
  "GROUP BY " ++ String.intercalate ", " (groupBy.map fun col => quoteIdentifier col dbType)

/-- The comparator `(a, b) => a.priority - b.priority` passed to
`Array.prototype.sort`, as a binary relation. -/
def ordLe (a b : OrderByClause) : Prop := a.priority ≤ b.priority

instance : DecidableRel ordLe := fun a b => inferInstanceAs (Decidable (a.priority ≤ b.priority))

instance : IsTotal OrderByClause ordLe := ⟨fun a b => Int.le_total a.priority b.priority⟩

instance : IsTrans OrderByClause ordLe := ⟨fun _ _ _ h h₂ => le_trans h h₂⟩

/-- The sort performed by `[...orderBy].sort((a, b) => a.priority - b.priority)`.
`Array.prototype.sort` is stable (ECMAScript 2019), and a stable sort with
respect to a total preorder is uniquely determined, so it is modelled by
insertion sort (also stable) ordered by `priority`. -/
def sortByPriority (l : List OrderByClause) : List OrderByClause :=
  List.insertionSort ordLe l

/-- `queryBuilder.ts` lines 149–159: `buildOrderByClause`.  Sorts (a copy of)
the entries by ascending priority and renders `column direction` pairs. -/
def buildOrderByClause (orderBy : List OrderByClause) (dbType : Dialect) : String :=
  let sorted := sortByPriority orderBy
  "ORDER BY " ++ String.intercalate ", " (sorted.map fun clause =>
    quoteIdentifier clause.column dbType ++ " " ++ dirStr clause.direction)

/-- `queryBuilder.ts` lines 15–55: `generateSQL`.  Pushes the SELECT and FROM
clauses unconditionally, the JOIN/WHERE/GROUP BY/ORDER BY clauses when their
lists are non-empty and LIMIT/OFFSET when defined, then joins all parts with
newlines and appends `;`. -/
def generateSQL (state : QueryBuilderState) (dbType : Dialect) : String :=
  let parts : List String :=
    [buildSelectClause state dbType, buildFromClause state dbType]
    ++ (if state.joins.isEmpty then [] else [buildJoinClauses state.joins dbType])
    ++ (if state.filters.isEmpty then [] else [buildWhereClause state.filters dbType])
    ++ (if state.groupBy.isEmpty then [] else [buildGroupByClause state.groupBy dbType])
    ++ (if state.orderBy.isEmpty then [] else [buildOrderByClause state.orderBy dbType])
    ++ (match state.limit with | some l => ["LIMIT " ++ numStr l] | none => [])
    ++ (match state.offset with | some o => ["OFFSET " ++ numStr o] | none => [])
  String.intercalate "\n" parts ++ ";"

/-! ### `validate` (`queryBuilder.ts` lines 188–245)

The source pushes error strings onto an array rule by rule; the embedding
produces the same strings in the same order as a list concatenation.
Truthiness guards of the source (`!state.table`, `!filter.value`,
`!join.table`, …) are falsy exactly for the empty string. -/

/-- Error message of the aggregate/GROUP BY mixing rule (line 238). -/
def aggregateErrorMsg : String :=
  "When using aggregate functions with non-aggregated columns, you must specify GROUP BY"

/-- Error message for a missing filter value (line 215); the operator
spelling is interpolated between double quotes. -/
def filterValueErrorMsg (op : FilterOperator) : String :=
  "Filter value is required for operator " ++ dquote ++ opStr op ++ dquote

/-- Errors of the table rule (lines 192–194). -/
def tableRuleErrors (state : QueryBuilderState) : List String :=
  if jsTrim state.table = "" then ["Table name is required"] else []

/-- Errors of the LIMIT rule (lines 197–199): defined and negative or not an
integer. -/
def limitRuleErrors (state : QueryBuilderState) : List String :=
  match state.limit with
  | some l => if l < 0 ∨ l.den ≠ 1 then ["LIMIT must be a positive integer"] else []
  | none => []

/-- Errors of the OFFSET rule (lines 202–204). -/
def offsetRuleErrors (state : QueryBuilderState) : List String :=
  match state.offset with
  | some o => if o < 0 ∨ o.den ≠ 1 then ["OFFSET must be a non-negative integer"] else []
  | none => []

/-- Errors of one iteration of the filter loop (lines 207–217): empty column,
then missing value for a non-null-check operator. -/
def filterRuleErrors (filter : FilterCondition) : List String :=
  (if jsTrim filter.column = "" then ["Filter column cannot be empty"] else [])
  ++ (if filter.operator ≠ .isNull ∧ filter.operator ≠ .isNotNull ∧ filter.value = "" then
        [filterValueErrorMsg filter.operator]
      else [])

/-- Errors of one iteration of the join loop (lines 220–224). -/
def joinRuleErrors (join : JoinClause) : List String :=
  if join.table = "" ∨ join.leftColumn = "" ∨ join.rightColumn = "" then
    ["Join requires table, left column, and right column"]
  else []

/-- Errors of one iteration of the ORDER BY loop (lines 227–231). -/
def orderRuleErrors (order : OrderByClause) : List String :=
  if jsTrim order.column = "" then ["ORDER BY column cannot be empty"] else []

/-- `col.aggregate && col.aggregate !== 'NONE'` (line 234). -/
def isAggregated (col : SelectColumn) : Bool :=
  match col.aggregate with
  | some a => a ≠ .NONE
  | none => false

/-- `!col.aggregate || col.aggregate === 'NONE'` (line 235). -/
def isNonAggregated (col : SelectColumn) : Bool :=
  match col.aggregate with
  | some a => a = .NONE
  | none => true

/-- Errors of the aggregate/GROUP BY mixing rule (lines 234–239). -/
def aggregateRuleErrors (state : QueryBuilderState) : List String :=
  let hasAggregates := state.selectColumns.any isAggregated
  let hasNonAggregates := state.selectColumns.any isNonAggregated
  if hasAggregates && hasNonAggregates && state.groupBy.isEmpty then [aggregateErrorMsg]
  else []

/-- `queryBuilder.ts` lines 188–245: `validate`.  All rules run
unconditionally, their errors are collected in push order and `valid` is
`errors.length === 0`. -/
def validate (state : QueryBuilderState) : ValidationResult :=
  let errors : List String :=
    tableRuleErrors state
    ++ limitRuleErrors state
    ++ offsetRuleErrors state
    ++ state.filters.flatMap filterRuleErrors
    ++ state.joins.flatMap joinRuleErrors
    ++ state.orderBy.flatMap orderRuleErrors
    ++ aggregateRuleErrors state
  { valid := errors.isEmpty, errors := errors }

/-- `queryBuilder.ts` lines 250–261: `createEmptyState`. -/
def createEmptyState (table : String) (schema : Option String) : QueryBuilderState :=
  { table := table, schema := schema, distinct := false, selectColumns := [],
    filters := [], joins := [], orderBy := [], limit := none, offset := none, groupBy := [] }

/-! ### `parseSQL` (`queryBuilder.ts` lines 267–309)

`parseSQL` preprocesses with `sql.trim().replace(/;$/, '')` and then runs
four regular expressions over the text.  The expressions are embedded as
structurally recursive scanners over the character list; each scanner tries
to match at position 0, 1, 2, … and returns the first (leftmost) success,
exactly as an unanchored JavaScript regex search does.  `\w` is
`[A-Za-z0-9_]`, `\d` is `[0-9]`, `\s` is `jsWhitespaceChar`, and the `i` flag
folds ASCII letters. -/

/-- ASCII lower-casing for case-insensitive keyword comparison. -/
def lowerAscii (c : Char) : Char :=
  if 'A' ≤ c && c ≤ 'Z' then Char.ofNat (c.toNat + 32) else c

/-- `\w` : `[A-Za-z0-9_]`. -/
def isWordChar (c : Char) : Bool :=
  ('a' ≤ c && c ≤ 'z') || ('A' ≤ c && c ≤ 'Z') || ('0' ≤ c && c ≤ '9') || c = '_'

/-- Match a literal keyword (given in lower case) case-insensitively at the
head of the input, returning the rest. -/
def matchCI : List Char → List Char → Option (List Char)
  | [], l => some l
  | _ :: _, [] => none
  | p :: ps, c :: cs => if lowerAscii c = p then matchCI ps cs else none

/-- Run `step` at every start position from left to right and return the
first success (the unanchored regex search). -/
def scanFirst (step : List Char → Option α) : List Char → Option α
  | [] => step []
  | c :: rest =>
    match step (c :: rest) with
    | some r => some r
    | none => scanFirst step rest

/-- The part of `/FROM\s+(?:"?(\w+)"?\."?)?(\w+)/i` after `FROM\s+`: an
optional group `"? schema "? . "?` followed by the table word.  Exhausting
the regex's backtracking: inside the group each optional quote is forced
(consuming a present quote and skipping it lead to the same failures because
`"` is neither `\w` nor `.`), and when the group cannot complete, the match
falls back to reading a bare `\w+` at the same position. -/
def fromTail (l : List Char) : Option (Option (List Char) × List Char) :=
  let grp : Option (Option (List Char) × List Char) :=
    let l2 := if l.head? = some '"' then l.tail else l
    let w1 := l2.takeWhile isWordChar
    let l3 := l2.dropWhile isWordChar
    if w1.isEmpty then none
    else
      let l4 := if l3.head? = some '"' then l3.tail else l3
      match l4 with
      | '.' :: l5 =>
        let l6 := if l5.head? = some '"' then l5.tail else l5
        let w2 := l6.takeWhile isWordChar
        if w2.isEmpty then none else some (some w1, w2)
      | _ => none
  match grp with
  | some r => some r
  | none =>
    let w2 := l.takeWhile isWordChar
    if w2.isEmpty then none else some (none, w2)

/-- One match attempt of `/FROM\s+(?:"?(\w+)"?\."?)?(\w+)/i` anchored at the
head of the input: the keyword, at least one whitespace, then `fromTail`. -/
def fromStep (l : List Char) : Option (Option (List Char) × List Char) :=
  match matchCI ['f', 'r', 'o', 'm'] l with
  | none => none
  | some r =>
    if (r.takeWhile jsWhitespaceChar).isEmpty then none
    else fromTail (r.dropWhile jsWhitespaceChar)

/-- Digits-to-number for `parseInt` on a `\d+` capture. -/
def digitsToNat (l : List Char) : Nat :=
  l.foldl (fun a c => 10 * a + (c.toNat - 48)) 0

/-- One match attempt of `/LIMIT\s+(\d+)/i` (and, with another keyword,
`/OFFSET\s+(\d+)/i`) anchored at the head of the input. -/
def keywordNatStep (kw : List Char) (l : List Char) : Option Nat :=
  match matchCI kw l with
  | none => none
  | some r =>
    if (r.takeWhile jsWhitespaceChar).isEmpty then none
    else
      let r1 := r.dropWhile jsWhitespaceChar
      let ds := r1.takeWhile Char.isDigit
      if ds.isEmpty then none else some (digitsToNat ds)

/-- One match attempt of `/SELECT\s+DISTINCT/i` anchored at the head. -/
def selectDistinctStep (l : List Char) : Option Unit :=
  match matchCI ['s', 'e', 'l', 'e', 'c', 't'] l with
  | none => none
  | some r =>
    if (r.takeWhile jsWhitespaceChar).isEmpty then none
    else
      match matchCI ['d', 'i', 's', 't', 'i', 'n', 'c', 't'] (r.dropWhile jsWhitespaceChar) with
      | some _ => some ()
      | none => none

/-- The preprocessing `sql.trim().replace(/;$/, '')` : trim, then drop one
trailing semicolon (an unanchored-at-the-left, `$`-anchored regex replaces
exactly the final semicolon when present). -/
def stripSemicolon (sql : String) : List Char :=
  let t := trimChars sql.toList
  if t.getLast? = some ';' then t.dropLast else t

/-- The `FROM` regex match of `parseSQL` on the preprocessed text. -/
def fromClauseMatch (sql : String) : Option (Option (List Char) × List Char) :=
  scanFirst fromStep (stripSemicolon sql)

/-- `queryBuilder.ts` lines 267–309: `parseSQL`.  Returns `none` when the
`FROM` regex finds no match (the source's `return null`; the surrounding
`try`/`catch` can never fire because nothing in the body throws), otherwise a
state carrying only table, schema, distinct, limit and offset.  The captured
schema group, when absent, falls back to the `schema` parameter
(`fromMatch[1] || schema`). -/
def parseSQL (sql : String) (schema : Option String) : Option QueryBuilderState :=
  let cs := stripSemicolon sql
  match scanFirst fromStep cs with
  | none => none
  | some (sch?, tbl) =>
    some
      { table := String.mk tbl
        schema := match sch? with
                  | some w => some (String.mk w)
                  | none => schema
        distinct := (scanFirst selectDistinctStep cs).isSome
        selectColumns := []
        filters := []
        joins := []
        orderBy := []
        limit := (scanFirst (keywordNatStep ['l', 'i', 'm', 'i', 't']) cs).map fun n => (n : Rat)
        offset := (scanFirst (keywordNatStep ['o', 'f', 'f', 's', 'e', 't']) cs).map fun n => (n : Rat)
        groupBy := [] }

/-! ### Mutation-aware embedding of `generateSQL`

JavaScript arrays are mutable heap objects; the only array-mutating operation
reachable from `generateSQL` is `Array.prototype.sort` inside
`buildOrderByClause` (line 151), and the source applies it to the fresh copy
produced by the spread `[...orderBy]`, not to the caller's array.  To make
that statable the embedding below threads the contents of the caller's
`orderBy` array through the call and returns them alongside the string: the
second component is what the caller's array holds after the call.  All other
operations used (`map`, `join`, `split`, string concatenation) are
non-mutating. -/

/-- `buildOrderByClause` with the final contents of the argument array made
explicit.  `const sorted = [...orderBy].sort(cmp)` copies the array and sorts
the copy in place, so the argument array is returned unchanged. -/
def buildOrderByClauseEff (orderBy : List OrderByClause) (dbType : Dialect) :
    String × List OrderByClause :=
  let copied := orderBy
  let sorted := sortByPriority copied
  ("ORDER BY " ++ String.intercalate ", " (sorted.map fun clause =>
      quoteIdentifier clause.column dbType ++ " " ++ dirStr clause.direction),
   orderBy)

/-- `generateSQL` with the state's array contents after the call made
explicit in the second component. -/
def generateSQLEff (state : QueryBuilderState) (dbType : Dialect) :
    String × QueryBuilderState :=
  let selectC := buildSelectClause state dbType
  let fromC := buildFromClause state dbType
  let joinC := if state.joins.isEmpty then [] else [buildJoinClauses state.joins dbType]
  let whereC := if state.filters.isEmpty then [] else [buildWhereClause state.filters dbType]
  let groupC := if state.groupBy.isEmpty then [] else [buildGroupByClause state.groupBy dbType]
  let orderRes :=
    if state.orderBy.isEmpty then (([] : List String), state.orderBy)
    else
      let r := buildOrderByClauseEff state.orderBy dbType
      ([r.1], r.2)
  let limitC := match state.limit with | some l => ["LIMIT " ++ numStr l] | none => []
  let offsetC := match state.offset with | some o => ["OFFSET " ++ numStr o] | none => []
  (String.intercalate "\n"
      ([selectC, fromC] ++ joinC ++ whereC ++ groupC ++ orderRes.1 ++ limitC ++ offsetC) ++ ";",
   { state with orderBy := orderRes.2 })

/-! ### Spec-side renderings (for the refinement claims)

The definitions below follow the wording of the specification sentence by
sentence; the theorems compare them with the source embeddings above. -/

/-- Spec §4.3: the clause list in the fixed order SELECT, FROM, JOIN*,
WHERE*, GROUP BY*, ORDER BY*, LIMIT*, OFFSET*, the starred entries present
only when their source collection is non-empty / their field is defined. -/
def clauseListSpec (s : QueryBuilderState) (d : Dialect) : List String :=
  [buildSelectClause s d, buildFromClause s d]
  ++ (if s.joins ≠ [] then [buildJoinClauses s.joins d] else [])
  ++ (if s.filters ≠ [] then [buildWhereClause s.filters d] else [])
  ++ (if s.groupBy ≠ [] then [buildGroupByClause s.groupBy d] else [])
  ++ (if s.orderBy ≠ [] then [buildOrderByClause s.orderBy d] else [])
  ++ (match s.limit with | some l => ["LIMIT " ++ numStr l] | none => [])
  ++ (match s.offset with | some o => ["OFFSET " ++ numStr o] | none => [])

/-- Spec §4.2 (WHERE), per filter: `column operator` for the null-checking
operators, `column IN (v1, v2, …)` for `IN`/`NOT IN` with the raw value
split on commas and each piece trimmed and escaped independently, and
`column operator escapedValue` for every other operator. -/
def whereSpecCondition (filter : FilterCondition) (d : Dialect) : String :=
  let column := quoteIdentifier filter.column d
  match filter.operator with
  | .isNull | .isNotNull => column ++ " " ++ opStr filter.operator
  | .inOp | .notIn =>
    column ++ " " ++ opStr filter.operator ++ " (" ++
      String.intercalate ", "
        ((jsSplitComma filter.value).map fun v => escapeValue (jsTrim v)) ++ ")"
  | op => column ++ " " ++ opStr op ++ " " ++ escapeValue filter.value

/-- Spec §4.2 (WHERE): each condition is followed by the filter's
`logicalOperator` (default `AND`) except the last one. -/
def whereSpecList : List FilterCondition → Dialect → List String
  | [], _ => []
  | [f], d => [whereSpecCondition f d]
  | f :: g :: rest, d =>
    (whereSpecCondition f d ++ " " ++ lopStr (f.logicalOperator.getD LogicalOperator.AND))
      :: whereSpecList (g :: rest) d

/-! ### Concrete states used by the scenarios of the claims -/

/-- Scenario A state: `users` table, one `age > 25` filter. -/
def scenarioAState : QueryBuilderState :=
  { table := "users", schema := none, distinct := false, selectColumns := [],
    filters := [{ column := "age", operator := .gt, value := "25", logicalOperator := none }],
    joins := [], orderBy := [], limit := none, offset := none, groupBy := [] }

/-- Scenario B filter: `status IN (active, pending)`. -/
def scenarioBFilter : FilterCondition :=
  { column := "status", operator := .inOp, value := "active, pending", logicalOperator := none }

/-- Scenario C state: a single fully aggregated select column, no GROUP BY. -/
def scenarioCState : QueryBuilderState :=
  { table := "orders", schema := none, distinct := false,
    selectColumns := [{ column := "id", aliasName := some "total", aggregate := some .COUNT }],
    filters := [], joins := [], orderBy := [], limit := none, offset := none, groupBy := [] }

/-- Scenario D state: one aggregated and one plain column, no GROUP BY. -/
def scenarioDState : QueryBuilderState :=
  { table := "orders", schema := none, distinct := false,
    selectColumns := [{ column := "id", aliasName := none, aggregate := some .COUNT },
                      { column := "name", aliasName := none, aggregate := some .NONE }],
    filters := [], joins := [], orderBy := [], limit := none, offset := none, groupBy := [] }

/-- A state violating several validation rules at once (empty table, negative
limit, filter with empty column and empty value). -/
def multiViolationState : QueryBuilderState :=
  { table := "", schema := none, distinct := false, selectColumns := [],
    filters := [{ column := "", operator := .eq, value := "", logicalOperator := none }],
    joins := [], orderBy := [], limit := some (-1), offset := none, groupBy := [] }

/-- The round-trip state of the claim: `createEmptyState("t")` with limit 10. -/
def roundTripState : QueryBuilderState :=
  { createEmptyState "t" none with limit := some 10 }

/-- The schema-qualified variant of the round-trip state. -/
def roundTripStateWithSchema : QueryBuilderState :=
  { createEmptyState "t" (some "s") with limit := some 10 }

/-- Two-element order-by state whose entries share the same priority. -/
def equalPriorityState : QueryBuilderState :=
  { table := "t", schema := none, distinct := false, selectColumns := [], filters := [],
    joins := [],
    orderBy := [{ column := "a", direction := .ASC, priority := 1 },
                { column := "b", direction := .ASC, priority := 1 }],
    limit := none, offset := none, groupBy := [] }

/-- `equalPriorityState` with its two order-by entries transposed. -/
def equalPrioritySwapped : QueryBuilderState :=
  { equalPriorityState with
    orderBy := [{ column := "b", direction := .ASC, priority := 1 },
                { column := "a", direction := .ASC, priority := 1 }] }

/-- A concrete non-integral rational (one half), built directly so that its
denominator evaluates by reduction. -/
def halfRat : Rat := ⟨1, 2, by decide, by decide⟩

/-- Two-element order-by state with distinct priorities. -/
def distinctPriorityState : QueryBuilderState :=
  { table := "t", schema := none, distinct := false, selectColumns := [], filters := [],
    joins := [],
    orderBy := [{ column := "a", direction := .ASC, priority := 2 },
                { column := "b", direction := .DESC, priority := 1 }],
    limit := none, offset := none, groupBy := [] }


/-! ### Helper lemmas and the claim theorems -/


lemma condList {α : Type} [DecidableEq α] (l : List α) (X : List String) :
    (if l.isEmpty then ([] : List String) else X) = if l ≠ [] then X else [] := by
  cases l <;> simp

/-- Claim C1: for every state and dialect, `generateSQL` emits the clauses in
the fixed order SELECT, FROM, JOIN, WHERE, GROUP BY, ORDER BY, LIMIT, OFFSET
(the conditional ones only when their list is non-empty / their field is
defined), joins the clause strings with single newlines and appends `;`;
with an empty `selectColumns` the SELECT clause is `SELECT *`
(`SELECT DISTINCT *` when `distinct`); and Scenario A compiles on postgresql
to exactly the expected three-line statement. -/
theorem claim_C1 :
    (∀ (s : QueryBuilderState) (d : Dialect),
        generateSQL s d = String.intercalate "\n" (clauseListSpec s d) ++ ";")
    ∧ (∀ (s : QueryBuilderState) (d : Dialect), s.selectColumns = [] →
        buildSelectClause s d = if s.distinct then "SELECT DISTINCT *" else "SELECT *")
    ∧ generateSQL scenarioAState Dialect.postgresql
        = "SELECT *\nFROM \"users\"\nWHERE \"age\" > 25;" := by
  refine ⟨?_, ?_, by decide⟩
  · intro s d
    simp only [generateSQL, clauseListSpec, condList, List.append_assoc]
  · intro s d h
    unfold buildSelectClause
    rw [h]
    cases s.distinct <;> rfl

/-- Witness for C1: the empty-projection hypothesis discharged on a concrete
state. -/
theorem claim_C1_witness :
    buildSelectClause (createEmptyState "users" none) Dialect.postgresql
      = if (createEmptyState "users" none).distinct then "SELECT DISTINCT *" else "SELECT *" :=
  claim_C1.2.1 (createEmptyState "users" none) Dialect.postgresql rfl



lemma renderCondition_eq_spec (f : FilterCondition) (d : Dialect) :
    renderCondition f d = whereSpecCondition f d := by
  rcases f with ⟨c, op, v, l⟩
  cases op <;> rfl

lemma whereEnumAux (d : Dialect) :
    ∀ (fs : List FilterCondition) (k : Nat),
      ((fs.enumFrom k).map fun p =>
        if p.1 < k + fs.length - 1 then
          renderCondition p.2 d ++ " " ++ lopStr (p.2.logicalOperator.getD LogicalOperator.AND)
        else renderCondition p.2 d)
      = whereSpecList fs d := by
  intro fs
  induction fs with
  | nil => intro k; rfl
  | cons f rest ih =>
    intro k
    cases rest with
    | nil =>
      simp only [List.enumFrom, List.map, whereSpecList, List.length_cons, List.length_nil]
      rw [if_neg (by omega), renderCondition_eq_spec]
    | cons g t =>
      have hlen : ∀ i : Nat, (i < k + (f :: g :: t).length - 1) = (i < (k + 1) + (g :: t).length - 1) := by
        intro i; simp only [List.length_cons]; congr 1; omega
      simp only [List.enumFrom, List.map]
      rw [if_pos (by simp only [List.length_cons]; omega)]
      have step := ih (k + 1)
      simp only [List.enumFrom, List.map] at step
      rw [whereSpecList]
      refine congrArg₂ List.cons (by rw [renderCondition_eq_spec]) ?_
      rw [← step]
      simp only [hlen]

/-- Claim C2: for every non-empty filter list the WHERE clause renders the
filters in sequence order — `column operator` for the null-check operators,
`column IN (v1, v2, …)` with the value split on commas and each piece trimmed
and escaped independently for `IN`/`NOT IN`, `column operator escapedValue`
otherwise — with each filter's `logicalOperator` (default `AND`) appended
after every condition except the last; Scenario B's single `IN` filter
renders as `"status" IN ('active', 'pending')`. -/
theorem claim_C2 :
    (∀ (fs : List FilterCondition) (d : Dialect), fs ≠ [] →
        buildWhereClause fs d = "WHERE " ++ String.intercalate " " (whereSpecList fs d))
    ∧ buildWhereClause [scenarioBFilter] Dialect.postgresql
        = "WHERE " ++ dquote ++ "status" ++ dquote ++ " IN (" ++ squote ++ "active" ++ squote
            ++ ", " ++ squote ++ "pending" ++ squote ++ ")" := by
  refine ⟨?_, by decide⟩
  intro fs d h
  unfold buildWhereClause
  rw [if_neg (by simpa using h)]
  have := whereEnumAux d fs 0
  simp only [Nat.zero_add] at this
  rw [List.enum, this]

/-- Witness for C2: the non-emptiness hypothesis discharged on Scenario B's
one-filter list. -/
theorem claim_C2_witness :
    buildWhereClause [scenarioBFilter] Dialect.postgresql
      = "WHERE " ++ String.intercalate " " (whereSpecList [scenarioBFilter] Dialect.postgresql) :=
  claim_C2.1 [scenarioBFilter] Dialect.postgresql (by decide)



/-- Claim C8: `escapeValue` follows exactly three cases — a value that both
starts and ends with a single quote passes through unchanged; otherwise a
value accepted by JavaScript numeric conversion passes through unquoted;
otherwise the value is wrapped in single quotes with embedded single quotes
doubled — and it is a total function on strings (witnessed by the concrete
evaluations). -/
theorem claim_C8 :
    (∀ value : String,
        value.toList.head? = some squoteC → value.toList.getLast? = some squoteC →
        escapeValue value = value)
    ∧ (∀ value : String,
        ¬(value.toList.head? = some squoteC ∧ value.toList.getLast? = some squoteC) →
        jsIsNumeric value = true → escapeValue value = value)
    ∧ (∀ value : String,
        ¬(value.toList.head? = some squoteC ∧ value.toList.getLast? = some squoteC) →
        jsIsNumeric value = false →
        escapeValue value
          = squote ++ String.mk (replaceAllChar squoteC [squoteC, squoteC] value.toList) ++ squote)
    ∧ escapeValue (String.mk [squoteC, 'x', squoteC]) = String.mk [squoteC, 'x', squoteC]
    ∧ escapeValue "3.5" = "3.5"
    ∧ escapeValue "abc" = squote ++ "abc" ++ squote
    ∧ escapeValue (String.mk ['O', squoteC, 'B']) = squote ++ "O" ++ squote ++ squote ++ "B" ++ squote := by
  refine ⟨?_, ?_, ?_, by decide, by decide, by decide, by decide⟩
  · intro v h1 h2
    unfold escapeValue
    rw [if_pos ⟨h1, h2⟩]
  · intro v h hn
    unfold escapeValue
    rw [if_neg h, if_pos hn]
  · intro v h hn
    unfold escapeValue
    rw [if_neg h, if_neg (by simp [hn])]

/-- Witness for C8: the third (quote-and-double) case discharged on a
concrete non-numeric value. -/
theorem claim_C8_witness :
    escapeValue "abc"
      = squote ++ String.mk (replaceAllChar squoteC [squoteC, squoteC] "abc".toList) ++ squote :=
  claim_C8.2.2.1 "abc" (by decide) (by decide)

lemma all_whitespace_trim_nil {l : List Char} (h : l.all jsWhitespaceChar = true) :
    trimChars l = [] := by
  have h1 : l.dropWhile jsWhitespaceChar = [] := by
    rw [List.dropWhile_eq_nil_iff]
    intro x hx
    exact List.all_eq_true.mp h x hx
  unfold trimChars
  rw [h1]
  rfl

/-- Claim C10: the empty string and every whitespace-only string count as
numeric for `escapeValue` (JavaScript `Number` maps them to `0`) and are
returned unchanged and unquoted, so a filter with an empty value under a
comparison operator renders as `column operator ` with a trailing space and
no value token. -/
theorem claim_C10 :
    (∀ s : String, s.toList.all jsWhitespaceChar = true → escapeValue s = s)
    ∧ escapeValue "" = ""
    ∧ jsIsNumeric "" = true
    ∧ jsIsNumeric " " = true
    ∧ buildWhereClause
        [{ column := "col", operator := .eq, value := "", logicalOperator := none }]
        Dialect.postgresql = "WHERE " ++ dquote ++ "col" ++ dquote ++ " = " := by
  refine ⟨?_, by decide, by decide, by decide, by decide⟩
  intro s h
  have hnum : jsIsNumeric s = true := by
    unfold jsIsNumeric
    rw [all_whitespace_trim_nil h]
    rfl
  have hq : ¬(s.toList.head? = some squoteC ∧ s.toList.getLast? = some squoteC) := by
    rintro ⟨h1, -⟩
    cases hc : s.toList with
    | nil => rw [hc] at h1; simp at h1
    | cons c rest =>
      rw [hc] at h1
      simp only [List.head?] at h1
      have hcw : jsWhitespaceChar c = true := by
        have := List.all_eq_true.mp (hc ▸ h) c (List.mem_cons_self c rest)
        exact this
      have : c = squoteC := by injection h1
      rw [this] at hcw
      exact absurd hcw (by decide)
  unfold escapeValue
  rw [if_neg hq, if_pos hnum]

/-- Witness for C10: the all-whitespace hypothesis discharged on a single
space. -/
theorem claim_C10_witness : escapeValue " " = " " :=
  claim_C10.1 " " (by decide)



/-- Counterexample to C4 as stated: on `createEmptyState "t"` with limit 10
the generated SQL quotes the table name (`FROM "t"`), which the `FROM` regex
of `parseSQL` cannot match (its optional group requires a schema dot after a
quoted word), so the round trip returns `null`, not a state with table `t`
and limit 10. -/
theorem claim_C4_counterexample :
    parseSQL (generateSQL roundTripState Dialect.postgresql) none = none := by decide

/-- Claim C4 (amended): the round trip through `generateSQL` returns `null`
for the unqualified state because the table is rendered quoted; the same
query with an unquoted table parses back with table `t` and limit 10, and
for the schema-qualified state `createEmptyState "t" "s"` with limit 10
the full round trip does return a state with table `t` and limit 10. -/
theorem claim_C4 :
    generateSQL roundTripState Dialect.postgresql = "SELECT *\nFROM \"t\"\nLIMIT 10;"
    ∧ parseSQL "SELECT *\nFROM t\nLIMIT 10;" none
        = some { table := "t", schema := none, distinct := false, selectColumns := [],
                 filters := [], joins := [], orderBy := [], limit := some 10, offset := none,
                 groupBy := [] }
    ∧ ∃ st, parseSQL (generateSQL roundTripStateWithSchema Dialect.postgresql) none = some st
          ∧ st.table = "t" ∧ st.limit = some 10 := by
  refine ⟨by decide, by decide, ?_⟩
  refine ⟨{ table := "t", schema := some "s", distinct := false, selectColumns := [],
            filters := [], joins := [], orderBy := [], limit := some 10, offset := none,
            groupBy := [] }, by decide, rfl, rfl⟩

/-- Claim C5: `parseSQL` (a total function in this embedding — the source's
`try`/`catch` has nothing to catch) returns `null` exactly when its `FROM`
regex finds no match, and every non-null result carries only table, schema,
distinct, limit and offset: its filters, joins, orderBy, groupBy and
selectColumns are always empty. -/
theorem claim_C5 :
    ∀ (sql : String) (hint : Option String),
      (parseSQL sql hint = none ↔ fromClauseMatch sql = none)
      ∧ ∀ st, parseSQL sql hint = some st →
          st.selectColumns = [] ∧ st.filters = [] ∧ st.joins = []
            ∧ st.orderBy = [] ∧ st.groupBy = [] := by
  intro sql hint
  unfold parseSQL fromClauseMatch
  cases h : scanFirst fromStep (stripSemicolon sql) with
  | none => simp only [h]; simp
  | some r =>
    rcases r with ⟨sch, tbl⟩
    simp only [h]
    refine ⟨by simp, ?_⟩
    intro st hst
    have hst2 := hst.symm
    injection hst with hst3
    rw [← hst3]
    exact ⟨rfl, rfl, rfl, rfl, rfl⟩

/-- Witness for C5: the some-result hypothesis discharged on the parse of
`FROM t`. -/
theorem claim_C5_witness :
    ({ table := "t", schema := none, distinct := false, selectColumns := [], filters := [],
       joins := [], orderBy := [], limit := none, offset := none,
       groupBy := [] } : QueryBuilderState).selectColumns = []
    ∧ ({ table := "t", schema := none, distinct := false, selectColumns := [], filters := [],
         joins := [], orderBy := [], limit := none, offset := none,
         groupBy := [] } : QueryBuilderState).filters = []
    ∧ ({ table := "t", schema := none, distinct := false, selectColumns := [], filters := [],
         joins := [], orderBy := [], limit := none, offset := none,
         groupBy := [] } : QueryBuilderState).joins = []
    ∧ ({ table := "t", schema := none, distinct := false, selectColumns := [], filters := [],
         joins := [], orderBy := [], limit := none, offset := none,
         groupBy := [] } : QueryBuilderState).orderBy = []
    ∧ ({ table := "t", schema := none, distinct := false, selectColumns := [], filters := [],
         joins := [], orderBy := [], limit := none, offset := none,
         groupBy := [] } : QueryBuilderState).groupBy = [] :=
  (claim_C5 "FROM t" none).2 _ (by decide)



lemma mem_tableRule {s : QueryBuilderState} {e : String} (h : e ∈ tableRuleErrors s) :
    e = "Table name is required" := by
  unfold tableRuleErrors at h
  split at h <;> simp_all

lemma mem_limitRule {s : QueryBuilderState} {e : String} (h : e ∈ limitRuleErrors s) :
    e = "LIMIT must be a positive integer" := by
  unfold limitRuleErrors at h
  split at h
  · split at h <;> simp_all
  · simp_all

lemma mem_offsetRule {s : QueryBuilderState} {e : String} (h : e ∈ offsetRuleErrors s) :
    e = "OFFSET must be a non-negative integer" := by
  unfold offsetRuleErrors at h
  split at h
  · split at h <;> simp_all
  · simp_all

lemma mem_filterRule {f : FilterCondition} {e : String} (h : e ∈ filterRuleErrors f) :
    e = "Filter column cannot be empty" ∨ e = filterValueErrorMsg f.operator := by
  unfold filterRuleErrors at h
  rcases List.mem_append.mp h with h1 | h1
  · left; revert h1; split <;> simp_all
  · right; revert h1; split <;> simp_all

lemma mem_joinRule {j : JoinClause} {e : String} (h : e ∈ joinRuleErrors j) :
    e = "Join requires table, left column, and right column" := by
  unfold joinRuleErrors at h
  split at h <;> simp_all

lemma mem_orderRule {o : OrderByClause} {e : String} (h : e ∈ orderRuleErrors o) :
    e = "ORDER BY column cannot be empty" := by
  unfold orderRuleErrors at h
  split at h <;> simp_all

lemma filterValueErrorMsg_ne_agg (op : FilterOperator) :
    filterValueErrorMsg op ≠ aggregateErrorMsg := by
  cases op <;> decide

lemma mem_aggRule_iff {s : QueryBuilderState} :
    aggregateErrorMsg ∈ aggregateRuleErrors s ↔
      (s.selectColumns.any isAggregated = true ∧ s.selectColumns.any isNonAggregated = true
        ∧ s.groupBy = []) := by
  unfold aggregateRuleErrors
  dsimp only
  split
  · next hcond =>
    simp only [List.mem_singleton, true_iff]
    have h1 := hcond
    simp only [Bool.and_eq_true, List.isEmpty_iff] at h1
    exact ⟨h1.1.1, h1.1.2, h1.2⟩
  · next hcond =>
    simp only [List.not_mem_nil, false_iff]
    intro ⟨h1, h2, h3⟩
    exact hcond (by simp [h1, h2, h3])

/-- Claim C6: `validate` appends the GROUP BY mixing error exactly when some
select column is aggregated, some select column is not (aggregate `NONE` or
absent), and `groupBy` is empty; Scenario C (a single fully aggregated
column, empty groupBy) is valid, and Scenario D (one aggregated plus one
plain column, empty groupBy) is invalid with that error present.  Membership
of the error in groupBy is not required. -/
theorem claim_C6 :
    (∀ s : QueryBuilderState,
        aggregateErrorMsg ∈ (validate s).errors ↔
          (s.selectColumns.any isAggregated = true
            ∧ s.selectColumns.any isNonAggregated = true
            ∧ s.groupBy = []))
    ∧ (validate scenarioCState).valid = true
    ∧ (validate scenarioDState).valid = false
    ∧ aggregateErrorMsg ∈ (validate scenarioDState).errors := by
  refine ⟨?_, by decide, by decide, by decide⟩
  intro s
  show aggregateErrorMsg ∈
      tableRuleErrors s ++ limitRuleErrors s ++ offsetRuleErrors s
      ++ s.filters.flatMap filterRuleErrors ++ s.joins.flatMap joinRuleErrors
      ++ s.orderBy.flatMap orderRuleErrors ++ aggregateRuleErrors s ↔ _
  rw [List.mem_append]
  constructor
  · rintro (hmem | hmem)
    · exfalso
      rcases List.mem_append.mp hmem with hmem | hmem
      · rcases List.mem_append.mp hmem with hmem | hmem
        · rcases List.mem_append.mp hmem with hmem | hmem
          · rcases List.mem_append.mp hmem with hmem | hmem
            · rcases List.mem_append.mp hmem with hmem | hmem
              · exact absurd (mem_tableRule hmem).symm (by decide)
              · exact absurd (mem_limitRule hmem).symm (by decide)
            · exact absurd (mem_offsetRule hmem).symm (by decide)
          · rcases List.mem_flatMap.mp hmem with ⟨f, _, hf⟩
            rcases mem_filterRule hf with h1 | h1
            · exact absurd h1.symm (by decide)
            · exact filterValueErrorMsg_ne_agg f.operator h1.symm
        · rcases List.mem_flatMap.mp hmem with ⟨j, _, hj⟩
          exact absurd (mem_joinRule hj).symm (by decide)
      · rcases List.mem_flatMap.mp hmem with ⟨o, _, ho⟩
        exact absurd (mem_orderRule ho).symm (by decide)
    · exact mem_aggRule_iff.mp hmem
  · intro hcond
    exact Or.inr (mem_aggRule_iff.mpr hcond)



lemma filterValueErrorMsg_ne_limit (op : FilterOperator) :
    filterValueErrorMsg op ≠ "LIMIT must be a positive integer" := by
  cases op <;> decide

lemma mem_aggRule {s : QueryBuilderState} {e : String} (h : e ∈ aggregateRuleErrors s) :
    e = aggregateErrorMsg := by
  unfold aggregateRuleErrors at h
  dsimp only at h
  split at h <;> simp_all

lemma mem_limitRule_iff {s : QueryBuilderState} {q : Rat} (h : s.limit = some q) :
    "LIMIT must be a positive integer" ∈ limitRuleErrors s ↔ (q < 0 ∨ q.den ≠ 1) := by
  unfold limitRuleErrors
  rw [h]
  show "LIMIT must be a positive integer"
      ∈ (if q < 0 ∨ q.den ≠ 1 then ["LIMIT must be a positive integer"] else []) ↔ _
  by_cases hc : q < 0 ∨ q.den ≠ 1
  · rw [if_pos hc]; simp [hc]
  · rw [if_neg hc]; simp [hc]

/-- Claim C7: `validate` collects all violations (demonstrated by a state
violating four rules at once yielding exactly the four error strings in rule
order), returns `valid` true exactly when the error list is empty, flags an
empty (post-trim) table name, and accepts limit 0 while rejecting a negative
or non-integral limit (and a negative offset). -/
theorem claim_C7 :
    (∀ s : QueryBuilderState, (validate s).valid = true ↔ (validate s).errors = [])
    ∧ (∀ s : QueryBuilderState, jsTrim s.table = "" →
        "Table name is required" ∈ (validate s).errors)
    ∧ (∀ (s : QueryBuilderState) (q : Rat), s.limit = some q →
        ("LIMIT must be a positive integer" ∈ (validate s).errors ↔ (q < 0 ∨ q.den ≠ 1)))
    ∧ (validate multiViolationState).errors
        = ["Table name is required", "LIMIT must be a positive integer",
           "Filter column cannot be empty", filterValueErrorMsg FilterOperator.eq]
    ∧ (validate { createEmptyState "t" none with limit := some 0 }).valid = true
    ∧ (validate { createEmptyState "t" none with limit := some (-1) }).valid = false
    ∧ (validate { createEmptyState "t" none with limit := some halfRat }).valid = false
    ∧ (validate { createEmptyState "t" none with offset := some (-3) }).valid = false := by
  refine ⟨?_, ?_, ?_, by decide, by decide, by decide, by decide, by decide⟩
  · intro s
    show (validate s).errors.isEmpty = true ↔ _
    exact List.isEmpty_iff
  · intro s h
    show "Table name is required" ∈
      tableRuleErrors s ++ limitRuleErrors s ++ offsetRuleErrors s
      ++ s.filters.flatMap filterRuleErrors ++ s.joins.flatMap joinRuleErrors
      ++ s.orderBy.flatMap orderRuleErrors ++ aggregateRuleErrors s
    have : "Table name is required" ∈ tableRuleErrors s := by
      unfold tableRuleErrors
      rw [if_pos h]
      exact List.mem_singleton.mpr rfl
    simp only [List.mem_append]
    exact Or.inl (Or.inl (Or.inl (Or.inl (Or.inl (Or.inl this)))))
  · intro s q h
    show "LIMIT must be a positive integer" ∈
      tableRuleErrors s ++ limitRuleErrors s ++ offsetRuleErrors s
      ++ s.filters.flatMap filterRuleErrors ++ s.joins.flatMap joinRuleErrors
      ++ s.orderBy.flatMap orderRuleErrors ++ aggregateRuleErrors s ↔ _
    constructor
    · intro hmem
      rcases List.mem_append.mp hmem with hmem | hmem
      · rcases List.mem_append.mp hmem with hmem | hmem
        · rcases List.mem_append.mp hmem with hmem | hmem
          · rcases List.mem_append.mp hmem with hmem | hmem
            · rcases List.mem_append.mp hmem with hmem | hmem
              · rcases List.mem_append.mp hmem with hmem | hmem
                · exact absurd (mem_tableRule hmem).symm (by decide)
                · exact (mem_limitRule_iff h).mp hmem
              · exact absurd (mem_offsetRule hmem).symm (by decide)
            · rcases List.mem_flatMap.mp hmem with ⟨f, _, hf⟩
              rcases mem_filterRule hf with h1 | h1
              · exact absurd h1.symm (by decide)
              · exact absurd h1.symm (filterValueErrorMsg_ne_limit f.operator)
          · rcases List.mem_flatMap.mp hmem with ⟨j, _, hj⟩
            exact absurd (mem_joinRule hj).symm (by decide)
        · rcases List.mem_flatMap.mp hmem with ⟨o, _, ho⟩
          exact absurd (mem_orderRule ho).symm (by decide)
      · exact absurd (mem_aggRule hmem).symm (by decide)
    · intro hc
      have : "LIMIT must be a positive integer" ∈ limitRuleErrors s :=
        (mem_limitRule_iff h).mpr hc
      simp only [List.mem_append]
      exact Or.inl (Or.inl (Or.inl (Or.inl (Or.inl (Or.inr this)))))

/-- Witness for C7: the table and limit hypotheses discharged on the
multi-violation state. -/
theorem claim_C7_witness :
    ((validate multiViolationState).valid = true ↔ (validate multiViolationState).errors = [])
    ∧ "Table name is required" ∈ (validate multiViolationState).errors
    ∧ ("LIMIT must be a positive integer" ∈ (validate multiViolationState).errors
        ↔ ((-1 : Rat) < 0 ∨ (-1 : Rat).den ≠ 1)) :=
  ⟨claim_C7.1 multiViolationState,
   claim_C7.2.1 multiViolationState (by decide),
   claim_C7.2.2.1 multiViolationState (-1) (by decide)⟩



lemma eq_of_sorted_perm_nodup :
    ∀ (l₁ l₂ : List OrderByClause), l₁.Perm l₂ →
      l₁.Sorted ordLe → l₂.Sorted ordLe →
      l₁.Pairwise (fun a b => a.priority ≠ b.priority) → l₁ = l₂ := by
  intro l₁
  induction l₁ with
  | nil =>
    intro l₂ hp _ _ _
    exact (List.Perm.eq_nil hp.symm).symm
  | cons a t ih =>
    intro l₂ hp hs₁ hs₂ hnd
    cases l₂ with
    | nil =>
      have := List.Perm.eq_nil hp
      simp at this
    | cons b t₂ =>
      have hab : a = b := by
        have ha2 : a ∈ b :: t₂ := hp.mem_iff.mp (List.mem_cons_self a t)
        have hb1 : b ∈ a :: t := hp.mem_iff.mpr (List.mem_cons_self b t₂)
        rcases List.mem_cons.mp ha2 with h | h
        · exact h
        · rcases List.mem_cons.mp hb1 with h2 | h2
          · exact h2.symm
          · have hba : ordLe b a := List.rel_of_sorted_cons hs₂ a h
            have hab2 : ordLe a b := List.rel_of_sorted_cons hs₁ b h2
            have hpr : a.priority = b.priority := le_antisymm hab2 hba
            exact absurd hpr ((List.pairwise_cons.mp hnd).1 b h2)
      subst hab
      have hpt : t.Perm t₂ := List.Perm.cons_inv hp
      have := ih t₂ hpt hs₁.of_cons hs₂.of_cons (List.pairwise_cons.mp hnd).2
      rw [this]

lemma sortByPriority_perm_eq {l₁ l₂ : List OrderByClause} (hp : l₁.Perm l₂)
    (hnd : (l₁.map OrderByClause.priority).Nodup) :
    sortByPriority l₁ = sortByPriority l₂ := by
  have h1 : l₁.Pairwise (fun a b => a.priority ≠ b.priority) := List.pairwise_map.mp hnd
  apply eq_of_sorted_perm_nodup
  · exact (List.perm_insertionSort ordLe l₁).trans (hp.trans (List.perm_insertionSort ordLe l₂).symm)
  · exact List.sorted_insertionSort ordLe l₁
  · exact List.sorted_insertionSort ordLe l₂
  · exact ((List.perm_insertionSort ordLe l₁).pairwise_iff
      (fun h h2 => h h2.symm)).mpr h1

/-- Counterexample to C3 as stated: the two order-by entries of
`equalPriorityState` share priority 1, the transposed list is a permutation
holding every entry's priority fixed, yet the compiled outputs differ —
the stable sort preserves insertion order among equal priorities, so
sequence position does matter on ties. -/
theorem claim_C3_counterexample :
    equalPrioritySwapped.orderBy.Perm equalPriorityState.orderBy
    ∧ generateSQL equalPriorityState Dialect.postgresql
        ≠ generateSQL equalPrioritySwapped Dialect.postgresql :=
  ⟨List.Perm.swap _ _ _, by decide⟩

/-- Claim C3 (amended): permuting the `orderBy` sequence while holding each
entry's priority fixed yields identical compiled output *provided the
priority values are pairwise distinct* (for equal priorities the stable sort
preserves insertion order, see the counterexample). -/
theorem claim_C3 :
    ∀ (s : QueryBuilderState) (ob : List OrderByClause) (d : Dialect),
      s.orderBy.Perm ob → (s.orderBy.map OrderByClause.priority).Nodup →
      generateSQL { s with orderBy := ob } d = generateSQL s d := by
  intro s ob d hp hnd
  have hsort : sortByPriority ob = sortByPriority s.orderBy :=
    sortByPriority_perm_eq hp.symm (((hp.map OrderByClause.priority).nodup_iff).mp hnd)
  have hemp : ob.isEmpty = s.orderBy.isEmpty := by
    have := hp.length_eq
    cases ob <;> cases hso : s.orderBy <;> simp_all
  unfold generateSQL
  simp only
  rw [hemp]
  have e1 : buildSelectClause { s with orderBy := ob } d = buildSelectClause s d := rfl
  have e2 : buildFromClause { s with orderBy := ob } d = buildFromClause s d := rfl
  have e3 : buildOrderByClause ob d = buildOrderByClause s.orderBy d := by
    unfold buildOrderByClause
    rw [hsort]
  rw [e1, e2, e3]

/-- Witness for C3: the permutation and distinct-priority hypotheses
discharged on a concrete two-entry swap. -/
theorem claim_C3_witness :
    generateSQL
      { distinctPriorityState with
        orderBy := [{ column := "b", direction := .DESC, priority := 1 },
                    { column := "a", direction := .ASC, priority := 2 }] }
      Dialect.postgresql
    = generateSQL distinctPriorityState Dialect.postgresql :=
  claim_C3 distinctPriorityState
    [{ column := "b", direction := .DESC, priority := 1 },
     { column := "a", direction := .ASC, priority := 2 }]
    Dialect.postgresql (List.Perm.swap _ _ _) (by decide)



/-- Claim C9: in the mutation-aware embedding `generateSQLEff`, whose second
component is the caller's state (array contents) after the call, the state
after equals the state before — `buildOrderByClause` sorts the fresh copy
made by the array spread, never the argument array — the produced string
equals pure `generateSQL`, and a repeated call on the post-call state yields
the identical string. -/
theorem claim_C9 :
    ∀ (s : QueryBuilderState) (d : Dialect),
      generateSQLEff s d = (generateSQL s d, s)
      ∧ (generateSQLEff (generateSQLEff s d).2 d).1 = (generateSQLEff s d).1 := by
  intro s d
  have hmain : generateSQLEff s d = (generateSQL s d, s) := by
    unfold generateSQLEff generateSQL buildOrderByClauseEff buildOrderByClause
    cases hob : s.orderBy.isEmpty <;> simp only [hob, if_true, if_false, Bool.false_eq_true]
  refine ⟨hmain, ?_⟩
  rw [hmain, show ((generateSQL s d, s) : String × QueryBuilderState).2 = s from rfl, hmain]


end DBStudio

